import Mathlib

/-
Verification of the teleprompter scroll-state engine
(`TeleprompterManager` in src/unnamed/part_002, first variant, lines 17-334).

Embedding choices:
* JavaScript numbers are modelled as exact rationals (ℚ); the integer-valued
  fields (`numberOfLines`, `currentLinePosition`) are modelled as ℤ, which is
  what every code path assigns to them.
* `Date.now()` is passed in explicitly as a rational `now` parameter to the
  operations that read the clock.
* Nullable timestamp fields (`endTimestamp`, `finalLineTimestamp`) are
  `Option ℚ`, and JavaScript truthiness of such a field (`null` and `0` are
  falsy) is modelled by `jsTruthy`.
* The `TranscriptProcessor` class is imported by the source but its
  implementation is not part of this repository's sources, so it is modelled
  from the spec as an abstract pure interface (see `TranscriptProcessor`
  below); all operations are parameterised by an instance of it.
* Timer handles (`replayTimeout`) and the session loop live outside the
  engine state and are not part of this embedding.
-/

namespace Teleprompter

/-- JavaScript `Math.round`: rounds half toward positive infinity. -/
def jsRound (q : ℚ) : ℤ := ⌊q + 1 / 2⌋

/-- JavaScript truthiness of a nullable number: `null` and `0` are falsy. -/
def jsTruthy : Option ℚ → Bool
  | none => false
  | some q => !(decide (q = 0))

/-- JavaScript `Array.prototype.slice(start, stop)` on an array of strings,
with the ECMAScript handling of negative and out-of-range indices. -/
def jsSlice (l : List String) (start stop : ℤ) : List String :=
  let len : ℤ := l.length
  let a : ℤ := if start < 0 then max (len + start) 0 else min start len
  let b : ℤ := if stop < 0 then max (len + stop) 0 else min stop len
  (l.drop a.toNat).take (b - a).toNat

/-- The `while (visibleLines.length < this.numberOfLines) push("")` padding
loop in `getCurrentVisibleText`. -/
def padLines (l : List String) (n : ℤ) : List String :=
  l ++ List.replicate (n - (l.length : ℤ)).toNat ""

/-- JavaScript `String.prototype.padStart(2, "0")`. -/
def padStart2 (s : String) : String :=
  if s.length = 0 then "00" else if s.length = 1 then "0" ++ s else s

/-- Modelled from the spec: the text line-wrap primitive.  The class
`TranscriptProcessor` is imported by src/unnamed/part_002 from
`./utils/src/text-wrapping/TranscriptProcessor`, whose implementation is not
among this repository's source files.  Per spec section 6 it is a pair of
deterministic pure functions `wrap(text, width)` returning the ordered
sequence of display lines and `estimateWordsPerLine(text)` returning a
number, with no side effects. -/
structure TranscriptProcessor where
  wrapText : String → ℚ → List String
  estimateWordsPerLine : String → ℚ

/-- The mutable state of one `TeleprompterManager`
(src/unnamed/part_002 lines 18-36). -/
structure TeleprompterManager where
  text : String
  lineWidth : ℚ
  numberOfLines : ℤ
  scrollSpeed : ℚ
  scrollInterval : ℚ
  lines : List String
  currentLinePosition : ℤ
  linePositionAccumulator : ℚ
  avgWordsPerLine : ℚ
  wordsPerInterval : ℚ
  startTime : ℚ
  endTimestamp : Option ℚ
  showingEndMessage : Bool
  showingFinalLine : Bool
  finalLineTimestamp : Option ℚ
  autoReplay : Bool
  deriving DecidableEq

/-- `getDefaultText` (src/unnamed/part_002 lines 120-122), the fixed built-in
default text. -/
def getDefaultText : String :=
  "Welcome to AugmentOS Teleprompter. This is a default text that will scroll at your set speed. You can replace this with your own content through the settings. The teleprompter will automatically scroll text at a comfortable reading pace. You can adjust the scroll speed (in words per minute), line width, and number of lines through the settings menu. As you read this text, it will continue to scroll upward, allowing you to deliver your presentation smoothly and professionally. You can also use the teleprompter to read your own text. Just enter your text in the settings and the teleprompter will display it for you to read. When you reach the end of the text, the teleprompter will show \"END OF TEXT\" and then restart from the beginning after a short pause."

/-- `processText(preservePosition)` (src/unnamed/part_002 lines 59-82):
rewraps `text`, resets or clamps the position, and recomputes
`avgWordsPerLine` with the `<= 0` fallback to 5. -/
def processText (W : TranscriptProcessor) (preservePosition : Bool)
    (s : TeleprompterManager) : TeleprompterManager :=
  let lines := W.wrapText s.text s.lineWidth
  let pos : ℤ :=
    if preservePosition then
      min s.currentLinePosition (max 0 ((lines.length : ℤ) - s.numberOfLines))
    else 0
  let acc : ℚ := if preservePosition then s.linePositionAccumulator else 0
  let avg0 := W.estimateWordsPerLine s.text
  let avg : ℚ := if avg0 ≤ 0 then 5 else avg0
  { s with lines := lines, currentLinePosition := pos,
           linePositionAccumulator := acc, avgWordsPerLine := avg }

/-- `calculateWordsPerInterval()` (src/unnamed/part_002 lines 84-95); the
`linesPerInterval` it computes is only logged, the stored field is
`wordsPerInterval = (scrollSpeed / 60) * (scrollInterval / 1000)`. -/
def calculateWordsPerInterval (s : TeleprompterManager) : TeleprompterManager :=
  { s with wordsPerInterval := s.scrollSpeed / 60 * (s.scrollInterval / 1000) }

/-- `resetStopwatch()` (src/unnamed/part_002 lines 98-100). -/
def resetStopwatch (now : ℚ) (s : TeleprompterManager) : TeleprompterManager :=
  { s with startTime := now }

/-- The constructor (src/unnamed/part_002 lines 38-57): substitutes the
default text for an empty string, fixes `numberOfLines = 4` and
`scrollInterval = 500`, stores `scrollSpeed` unchanged, then runs
`processText`, `calculateWordsPerInterval` and `resetStopwatch`. -/
def mkTeleprompterManager (W : TranscriptProcessor) (text : String)
    (lineWidth scrollSpeed : ℚ) (autoReplay : Bool) (now : ℚ) :
    TeleprompterManager :=
  let s0 : TeleprompterManager :=
    { text := if text = "" then getDefaultText else text
      lineWidth := lineWidth
      numberOfLines := 4
      scrollSpeed := scrollSpeed
      scrollInterval := 500
      lines := []
      currentLinePosition := 0
      linePositionAccumulator := 0
      avgWordsPerLine := 0
      wordsPerInterval := 0
      startTime := now
      endTimestamp := none
      showingEndMessage := false
      showingFinalLine := false
      finalLineTimestamp := none
      autoReplay := autoReplay }
  resetStopwatch now (calculateWordsPerInterval (processText W false s0))

/-- `setText` (src/unnamed/part_002 lines 124-128). -/
def setText (W : TranscriptProcessor) (newText : String)
    (s : TeleprompterManager) : TeleprompterManager :=
  calculateWordsPerInterval (processText W false
    { s with text := if newText = "" then getDefaultText else newText })

/-- `setScrollSpeed` (src/unnamed/part_002 lines 130-139). -/
def setScrollSpeed (wordsPerMinute : ℚ) (s : TeleprompterManager) :
    TeleprompterManager :=
  let w := if wordsPerMinute < 1 then 1 else wordsPerMinute
  let w := if w > 500 then 500 else w
  calculateWordsPerInterval { s with scrollSpeed := w }

/-- `setLineWidth` (src/unnamed/part_002 lines 141-146): rebuilds the
processor with the new width and reprocesses with `preservePosition = true`. -/
def setLineWidth (W : TranscriptProcessor) (width : ℚ)
    (s : TeleprompterManager) : TeleprompterManager :=
  calculateWordsPerInterval (processText W true { s with lineWidth := width })

/-- `setNumberOfLines` (src/unnamed/part_002 lines 148-152); note it does not
call `calculateWordsPerInterval`. -/
def setNumberOfLines (W : TranscriptProcessor) (n : ℤ)
    (s : TeleprompterManager) : TeleprompterManager :=
  processText W true { s with numberOfLines := n }

/-- `setScrollInterval` (src/unnamed/part_002 lines 154-161). -/
def setScrollInterval (intervalMs : ℚ) (s : TeleprompterManager) :
    TeleprompterManager :=
  let i := if intervalMs < 100 then 100 else intervalMs
  let i := if i > 2000 then 2000 else i
  calculateWordsPerInterval { s with scrollInterval := i }

/-- `setAutoReplay` (src/unnamed/part_002 lines 167-174); the replay-timeout
cancellation is a timer-handle effect outside the modelled state. -/
def setAutoReplay (enabled : Bool) (s : TeleprompterManager) :
    TeleprompterManager :=
  { s with autoReplay := enabled }

/-- `resetPosition` (src/unnamed/part_002 lines 189-201). -/
def resetPosition (now : ℚ) (s : TeleprompterManager) : TeleprompterManager :=
  { s with currentLinePosition := 0
           linePositionAccumulator := 0
           endTimestamp := none
           showingEndMessage := false
           showingFinalLine := false
           finalLineTimestamp := none
           startTime := now }

/-- `advancePosition` (src/unnamed/part_002 lines 204-230): no-op on empty
`lines`; otherwise accumulates fractional lines, advances by the floor of the
accumulator when it reaches 1, then caps `currentLinePosition` at
`lines.length - numberOfLines` (with no lower guard). -/
def advancePosition (s : TeleprompterManager) : TeleprompterManager :=
  if s.lines = [] then s
  else
    let linesPerInterval := s.wordsPerInterval / max 1 s.avgWordsPerLine
    let acc := s.linePositionAccumulator + linesPerInterval
    let pos : ℤ :=
      if 1 ≤ acc then s.currentLinePosition + ⌊acc⌋ else s.currentLinePosition
    let acc2 : ℚ := if 1 ≤ acc then acc - (⌊acc⌋ : ℚ) else acc
    let maxPosition : ℤ := (s.lines.length : ℤ) - s.numberOfLines
    let pos2 := if maxPosition ≤ pos then maxPosition else pos
    { s with currentLinePosition := pos2, linePositionAccumulator := acc2 }

/-- `isAtEnd` (src/unnamed/part_002 lines 299-306): true when
`currentLinePosition >= lines.length - numberOfLines` (the body's `if` only
logs). -/
def isAtEnd (s : TeleprompterManager) : Bool :=
  decide ((s.lines.length : ℤ) - s.numberOfLines ≤ s.currentLinePosition)

/-- The `progressPercent` computation of `getCurrentVisibleText`
(src/unnamed/part_002 lines 248-253): 100 when everything fits, otherwise
`Math.min(100, Math.round(pos / (len - n) * 100))`. -/
def progressPercent (s : TeleprompterManager) : ℤ :=
  if (s.lines.length : ℤ) ≤ s.numberOfLines then 100
  else
    min 100 (jsRound ((s.currentLinePosition : ℚ) /
      ((s.lines.length : ℚ) - (s.numberOfLines : ℚ)) * 100))

/-- `getElapsedTime` (src/unnamed/part_002 lines 103-109), with the clock
passed in. -/
def getElapsedTime (now : ℚ) (s : TeleprompterManager) : String :=
  let totalSeconds : ℤ := ⌊(now - s.startTime) / 1000⌋
  let minutes : ℤ := ⌊(totalSeconds : ℚ) / 60⌋
  let seconds : ℤ := Int.tmod totalSeconds 60
  padStart2 (toString minutes) ++ ":" ++ padStart2 (toString seconds)

/-- The `progressText` header built by `getCurrentVisibleText`
(src/unnamed/part_002 line 256). -/
def headerText (now : ℚ) (s : TeleprompterManager) : String :=
  "[" ++ toString (progressPercent s) ++ "%] | " ++ getElapsedTime now s

/-- `getCurrentVisibleText` (src/unnamed/part_002 lines 233-297).  Returns the
rendered string together with the updated state (the method mutates the
end-of-text flags).  The source's straight-line fall-through - the second
`if` may mutate the flags and fall into the third `if` on the mutated state -
is written out as nested conditionals; `getCurrentTime()` is computed by the
source but never used in the returned string and is omitted. -/
def getCurrentVisibleText (now : ℚ) (s : TeleprompterManager) :
    String × TeleprompterManager :=
  if s.lines = [] then ("No text available", s)
  else
    let visibleLines := padLines
      (jsSlice s.lines s.currentLinePosition
        (s.currentLinePosition + s.numberOfLines)) s.numberOfLines
    let progressText := headerText now s
    let body := progressText ++ "\n" ++ String.intercalate "\n" visibleLines
    if isAtEnd s then
      if !s.showingFinalLine && !s.showingEndMessage then
        (body, { s with showingFinalLine := true,
                        finalLineTimestamp := some now })
      else if s.showingFinalLine && jsTruthy s.finalLineTimestamp then
        if now - s.finalLineTimestamp.getD 0 < 5000 then (body, s)
        else
          -- fall through into the third `if` with the mutated state
          let s1 := { s with showingFinalLine := false,
                             showingEndMessage := true,
                             endTimestamp := some now }
          if jsTruthy s1.endTimestamp then
            if now - now < 10000 then
              (progressText ++ "\n\n*** END OF TEXT ***", s1)
            else
              (body, { s1 with showingEndMessage := false,
                               endTimestamp := none,
                               finalLineTimestamp := none,
                               showingFinalLine := false })
          else (body, s1)
      else if s.showingEndMessage && jsTruthy s.endTimestamp then
        if now - s.endTimestamp.getD 0 < 10000 then
          (progressText ++ "\n\n*** END OF TEXT ***", s)
        else
          (body, { s with showingEndMessage := false,
                          endTimestamp := none,
                          finalLineTimestamp := none,
                          showingFinalLine := false })
      else (body, s)
    else (body, s)

/-- The end-of-text phases of spec section 4.2, as encoded by the source's
flag pair: `showingEndMessage` is the banner, `showingFinalLine` the final
line hold, neither is ordinary scrolling.  `Idle` is a session-loop notion
(the loop deletes the manager) and is not an engine state. -/
inductive Phase where
  | Scrolling
  | HoldingFinalLine
  | ShowingEndBanner
  deriving DecidableEq

/-- The phase encoded by a state's flags. -/
def phase (s : TeleprompterManager) : Phase :=
  if s.showingEndMessage then Phase.ShowingEndBanner
  else if s.showingFinalLine then Phase.HoldingFinalLine
  else Phase.Scrolling

/-- The progress percentage exactly as the spec sentence words it: 100 when
everything fits, otherwise the rounded ratio clamped to the interval
`[0, 100]` (both ends). -/
def specProgressPercent (s : TeleprompterManager) : ℤ :=
  if (s.lines.length : ℤ) ≤ s.numberOfLines then 100
  else
    max 0 (min 100 (jsRound (100 * (s.currentLinePosition : ℚ) /
      ((s.lines.length : ℚ) - (s.numberOfLines : ℚ)))))

/-- The fractional lines-per-tick increment exactly as the claim words it:
`(scrollSpeed / 60) * (scrollInterval / 1000) / max(1, avgWordsPerLine)`. -/
def claimLinesPerInterval (s : TeleprompterManager) : ℚ :=
  s.scrollSpeed / 60 * (s.scrollInterval / 1000) / max 1 s.avgWordsPerLine

/-- Modelled from the spec: a concrete executable instance of the missing
`TranscriptProcessor`, used to evaluate theorems on concrete inputs.  It
wraps any text into a single line at widths of 30 or more and into six lines
at narrower widths, and estimates five words per line. -/
def modelProcessor : TranscriptProcessor where
  wrapText := fun t w =>
    if w < 30 then [t, "line2", "line3", "line4", "line5", "line6"] else [t]
  estimateWordsPerLine := fun _ => 5

/-- A manager freshly constructed with default pacing on a text that wraps to
a single line (so `lines.length = 1 < 4 = numberOfLines`). -/
def exShort : TeleprompterManager :=
  mkTeleprompterManager modelProcessor "hello world" 38 120 false 0

/-- `exShort` after one `advancePosition` call: the cap drives the position
to `1 - 4 = -3`. -/
def exShortAdvanced : TeleprompterManager := advancePosition exShort

/-- `exShortAdvanced` after `setLineWidth 21`: the narrower width rewraps to
six lines while the clamp `min(-3, max(0, 6 - 4))` keeps the position at
`-3`. -/
def exWide : TeleprompterManager :=
  setLineWidth modelProcessor 21 exShortAdvanced

/-- A manager constructed with the out-of-range scroll speed `-60` (the
constructor does not clamp). -/
def exNegativeSpeed : TeleprompterManager :=
  mkTeleprompterManager modelProcessor "hello world" 38 (-60) false 0

/-- `exShort` after its first render at time 1: enters the final-line hold. -/
def exHold : TeleprompterManager := (getCurrentVisibleText 1 exShort).2

/-- `exHold` rendered at time 5001 (5000 ms into the hold): enters the end
banner. -/
def exBanner : TeleprompterManager := (getCurrentVisibleText 5001 exHold).2

/-- `exBanner` rendered at time 15001 (10000 ms into the banner): the render
clears every phase flag. -/
def exAfterBanner : TeleprompterManager :=
  (getCurrentVisibleText 15001 exBanner).2

/-! ## Helper lemmas -/

theorem advancePosition_lines (s : TeleprompterManager) :
    (advancePosition s).lines = s.lines := by
  unfold advancePosition; split <;> rfl

theorem advancePosition_numberOfLines (s : TeleprompterManager) :
    (advancePosition s).numberOfLines = s.numberOfLines := by
  unfold advancePosition; split <;> rfl

theorem iterate_advancePosition_lines (s : TeleprompterManager) (k : ℕ) :
    (advancePosition^[k] s).lines = s.lines := by
  induction k with
  | zero => rfl
  | succ m ih =>
    rw [Function.iterate_succ_apply', advancePosition_lines, ih]

theorem iterate_advancePosition_numberOfLines (s : TeleprompterManager)
    (k : ℕ) : (advancePosition^[k] s).numberOfLines = s.numberOfLines := by
  induction k with
  | zero => rfl
  | succ m ih =>
    rw [Function.iterate_succ_apply', advancePosition_numberOfLines, ih]

theorem isAtEnd_iff (s : TeleprompterManager) :
    isAtEnd s = true ↔
      (s.lines.length : ℤ) - s.numberOfLines ≤ s.currentLinePosition := by
  simp [isAtEnd]

/-- One `advancePosition` call on a state that is already at the end sets the
position to exactly `lines.length - numberOfLines` (the unconditional cap). -/
theorem advancePosition_at_end (s : TeleprompterManager)
    (hne : s.lines ≠ []) (hend : isAtEnd s = true) :
    (advancePosition s).currentLinePosition =
      (s.lines.length : ℤ) - s.numberOfLines := by
  rw [isAtEnd_iff] at hend
  unfold advancePosition
  rw [if_neg hne]
  dsimp only
  split_ifs with h1 h2
  · rfl
  · exfalso
    have hfl : (1 : ℤ) ≤ ⌊s.linePositionAccumulator +
        s.wordsPerInterval / max 1 s.avgWordsPerLine⌋ := by
      rwa [Int.le_floor, Int.cast_one]
    omega
  · rfl

/-! ## Evaluation of the concrete example states -/

theorem exShort_eq : exShort =
    { text := "hello world", lineWidth := 38, numberOfLines := 4,
      scrollSpeed := 120, scrollInterval := 500, lines := ["hello world"],
      currentLinePosition := 0, linePositionAccumulator := 0,
      avgWordsPerLine := 5, wordsPerInterval := 1, startTime := 0,
      endTimestamp := none, showingEndMessage := false,
      showingFinalLine := false, finalLineTimestamp := none,
      autoReplay := false } := by
  unfold exShort mkTeleprompterManager processText calculateWordsPerInterval
    resetStopwatch modelProcessor
  rw [if_neg (by decide : ¬ ("hello world" = ""))]
  norm_num

theorem exShortAdvanced_eq : exShortAdvanced =
    { text := "hello world", lineWidth := 38, numberOfLines := 4,
      scrollSpeed := 120, scrollInterval := 500, lines := ["hello world"],
      currentLinePosition := -3, linePositionAccumulator := 1 / 5,
      avgWordsPerLine := 5, wordsPerInterval := 1, startTime := 0,
      endTimestamp := none, showingEndMessage := false,
      showingFinalLine := false, finalLineTimestamp := none,
      autoReplay := false } := by
  unfold exShortAdvanced
  rw [exShort_eq]
  unfold advancePosition
  norm_num

theorem exWide_eq : exWide =
    { text := "hello world", lineWidth := 21, numberOfLines := 4,
      scrollSpeed := 120, scrollInterval := 500,
      lines := ["hello world", "line2", "line3", "line4", "line5", "line6"],
      currentLinePosition := -3, linePositionAccumulator := 1 / 5,
      avgWordsPerLine := 5, wordsPerInterval := 1, startTime := 0,
      endTimestamp := none, showingEndMessage := false,
      showingFinalLine := false, finalLineTimestamp := none,
      autoReplay := false } := by
  unfold exWide setLineWidth processText calculateWordsPerInterval
    modelProcessor
  rw [exShortAdvanced_eq]
  norm_num

theorem exNegativeSpeed_eq : exNegativeSpeed =
    { text := "hello world", lineWidth := 38, numberOfLines := 4,
      scrollSpeed := -60, scrollInterval := 500, lines := ["hello world"],
      currentLinePosition := 0, linePositionAccumulator := 0,
      avgWordsPerLine := 5, wordsPerInterval := -1 / 2, startTime := 0,
      endTimestamp := none, showingEndMessage := false,
      showingFinalLine := false, finalLineTimestamp := none,
      autoReplay := false } := by
  unfold exNegativeSpeed mkTeleprompterManager processText
    calculateWordsPerInterval resetStopwatch modelProcessor
  rw [if_neg (by decide : ¬ ("hello world" = ""))]
  norm_num

theorem exHold_eq : exHold =
    { text := "hello world", lineWidth := 38, numberOfLines := 4,
      scrollSpeed := 120, scrollInterval := 500, lines := ["hello world"],
      currentLinePosition := 0, linePositionAccumulator := 0,
      avgWordsPerLine := 5, wordsPerInterval := 1, startTime := 0,
      endTimestamp := none, showingEndMessage := false,
      showingFinalLine := true, finalLineTimestamp := some 1,
      autoReplay := false } := by
  unfold exHold
  rw [exShort_eq]
  simp only [getCurrentVisibleText]
  norm_num [isAtEnd, jsTruthy]

theorem exBanner_eq : exBanner =
    { text := "hello world", lineWidth := 38, numberOfLines := 4,
      scrollSpeed := 120, scrollInterval := 500, lines := ["hello world"],
      currentLinePosition := 0, linePositionAccumulator := 0,
      avgWordsPerLine := 5, wordsPerInterval := 1, startTime := 0,
      endTimestamp := some 5001, showingEndMessage := true,
      showingFinalLine := false, finalLineTimestamp := some 1,
      autoReplay := false } := by
  unfold exBanner
  rw [exHold_eq]
  simp only [getCurrentVisibleText]
  norm_num [isAtEnd, jsTruthy]

theorem exAfterBanner_eq : exAfterBanner =
    { text := "hello world", lineWidth := 38, numberOfLines := 4,
      scrollSpeed := 120, scrollInterval := 500, lines := ["hello world"],
      currentLinePosition := 0, linePositionAccumulator := 0,
      avgWordsPerLine := 5, wordsPerInterval := 1, startTime := 0,
      endTimestamp := none, showingEndMessage := false,
      showingFinalLine := false, finalLineTimestamp := none,
      autoReplay := false } := by
  unfold exAfterBanner
  rw [exBanner_eq]
  simp only [getCurrentVisibleText]
  norm_num [isAtEnd, jsTruthy]

/-! ## C1 -/

/-- C1: the claimed invariant `0 ≤ currentLinePosition ≤ max(0, lines.length
− numberOfLines)` is violated by the code: on a freshly constructed manager
whose text wraps to a single line (with the default `numberOfLines = 4`), one
`advancePosition()` call drives `currentLinePosition` to `-3`, because the
end cap assigns `lines.length - numberOfLines` without the `max(0, ·)` guard
that `processText` uses. -/
theorem advancePosition_short_text_negative :
    exShort.lines.length = 1 ∧ exShort.numberOfLines = 4 ∧
    exShort.currentLinePosition = 0 ∧
    exShortAdvanced = advancePosition exShort ∧
    exShortAdvanced.currentLinePosition = -3 ∧
    ¬ (0 ≤ exShortAdvanced.currentLinePosition) := by
  rw [exShort_eq, exShortAdvanced_eq]
  refine ⟨rfl, rfl, rfl, ?_, rfl, by norm_num⟩
  rw [← exShort_eq, ← exShortAdvanced_eq]
  rfl

/-! ## C2 -/

/-- C2 counterexample: the claim asserts `0 ≤ accumulator < 1` after every
`advancePosition()` on a state with non-empty lines, but a manager
constructed with the (unclamped) scroll speed `-60` has
`wordsPerInterval = -1/2`, and its first advance leaves the accumulator at
`-1/10 < 0`. -/
theorem advancePosition_negative_speed_accumulator :
    exNegativeSpeed.lines ≠ [] ∧
    exNegativeSpeed.wordsPerInterval = -1 / 2 ∧
    (advancePosition exNegativeSpeed).linePositionAccumulator = -1 / 10 ∧
    ¬ (0 ≤ (advancePosition exNegativeSpeed).linePositionAccumulator) := by
  rw [exNegativeSpeed_eq]
  refine ⟨by simp, rfl, ?_, ?_⟩ <;>
    · unfold advancePosition
      norm_num

/-- C2 (amended): in a state with non-empty lines whose cached
`wordsPerInterval` agrees with the current speed and interval (every
constructor and mutator maintains this), and whose accumulator and
words-per-interval are nonnegative, one `advancePosition()` adds
`(scrollSpeed/60)*(scrollInterval/1000)/max(1, avgWordsPerLine)` to the
accumulator, takes off the integer part when the sum reaches 1, caps the
position at `lines.length - numberOfLines`, and leaves the accumulator in
`[0, 1)`; on empty lines the call is the identity.  (Without the
nonnegativity assumption the claim fails, see the counterexample: the
constructor does not clamp the speed, so negative increments are
reachable.) -/
theorem advancePosition_step_spec (s : TeleprompterManager)
    (hsync : s.wordsPerInterval =
      s.scrollSpeed / 60 * (s.scrollInterval / 1000))
    (hwpi : 0 ≤ s.wordsPerInterval)
    (hacc : 0 ≤ s.linePositionAccumulator) :
    (s.lines = [] → advancePosition s = s) ∧
    (s.lines ≠ [] →
      (advancePosition s).currentLinePosition =
        min (if 1 ≤ s.linePositionAccumulator + claimLinesPerInterval s
             then s.currentLinePosition +
               ⌊s.linePositionAccumulator + claimLinesPerInterval s⌋
             else s.currentLinePosition)
          ((s.lines.length : ℤ) - s.numberOfLines) ∧
      (advancePosition s).linePositionAccumulator =
        (if 1 ≤ s.linePositionAccumulator + claimLinesPerInterval s
         then s.linePositionAccumulator + claimLinesPerInterval s -
           (⌊s.linePositionAccumulator + claimLinesPerInterval s⌋ : ℚ)
         else s.linePositionAccumulator + claimLinesPerInterval s) ∧
      0 ≤ (advancePosition s).linePositionAccumulator ∧
      (advancePosition s).linePositionAccumulator < 1) := by
  have hlpi : 0 ≤ claimLinesPerInterval s := by
    unfold claimLinesPerInterval
    exact div_nonneg (hsync ▸ hwpi)
      (le_trans zero_le_one (le_max_left 1 _))
  refine ⟨fun h => by simp [advancePosition, h], fun hne => ?_⟩
  have hcode : s.wordsPerInterval / max 1 s.avgWordsPerLine =
      claimLinesPerInterval s := by
    rw [hsync]; rfl
  unfold advancePosition
  rw [if_neg hne]
  dsimp only
  rw [hcode]
  have ha0 : 0 ≤ s.linePositionAccumulator + claimLinesPerInterval s :=
    add_nonneg hacc hlpi
  refine ⟨?_, rfl, ?_, ?_⟩
  · split_ifs with h1 h2 h3 <;> omega
  · split_ifs with h
    · rw [Int.self_sub_floor]
      exact Int.fract_nonneg _
    · exact ha0
  · split_ifs with h
    · rw [Int.self_sub_floor]
      exact Int.fract_lt_one _
    · exact not_le.1 h

/-- C2 witness: the amended step theorem applied to the concrete manager
`exShort`. -/
theorem advancePosition_step_spec_witness :
    0 ≤ (advancePosition exShort).linePositionAccumulator ∧
    (advancePosition exShort).linePositionAccumulator < 1 := by
  have h := (advancePosition_step_spec exShort
    (by rw [exShort_eq]; norm_num) (by rw [exShort_eq]; norm_num)
    (by rw [exShort_eq])).2 (by rw [exShort_eq]; simp)
  exact ⟨h.2.2.1, h.2.2.2⟩

/-! ## C3 -/

/-- C3: `setScrollSpeed` stores its argument clamped to `[1, 500]` and
`setScrollInterval` stores its argument clamped to `[100, 2000]` (the nearest
bound when outside the range). -/
theorem setScrollSpeed_setScrollInterval_clamp (w ms : ℚ)
    (s : TeleprompterManager) :
    (setScrollSpeed w s).scrollSpeed = min 500 (max 1 w) ∧
    (setScrollInterval ms s).scrollInterval = min 2000 (max 100 ms) := by
  constructor
  · simp only [setScrollSpeed, calculateWordsPerInterval]
    rw [min_def, max_def]
    split_ifs <;> linarith
  · simp only [setScrollInterval, calculateWordsPerInterval]
    rw [min_def, max_def]
    split_ifs <;> linarith

/-! ## C4 -/

/-- C4: `setLineWidth` rewraps the lines and clamps (never resets) the
position to `min(k, max(0, newLineCount - numberOfLines))`;
`setNumberOfLines` clamps the same way; `setScrollSpeed`,
`setScrollInterval` and `setAutoReplay` leave the position untouched; and
among the mutators only `setText` and `resetPosition` put the offset back to
0 unconditionally. -/
theorem setLineWidth_preserves_position (W : TranscriptProcessor) (w : ℚ)
    (m : ℤ) (t : String) (b : Bool) (q r now : ℚ)
    (s : TeleprompterManager) :
    (setLineWidth W w s).lines = W.wrapText s.text w ∧
    (setLineWidth W w s).currentLinePosition =
      min s.currentLinePosition
        (max 0 (((W.wrapText s.text w).length : ℤ) - s.numberOfLines)) ∧
    (setNumberOfLines W m s).currentLinePosition =
      min s.currentLinePosition
        (max 0 (((W.wrapText s.text s.lineWidth).length : ℤ) - m)) ∧
    (setScrollSpeed q s).currentLinePosition = s.currentLinePosition ∧
    (setScrollInterval r s).currentLinePosition = s.currentLinePosition ∧
    (setAutoReplay b s).currentLinePosition = s.currentLinePosition ∧
    (setText W t s).currentLinePosition = 0 ∧
    (resetPosition now s).currentLinePosition = 0 := by
  refine ⟨rfl, rfl, rfl, rfl, rfl, rfl, rfl, rfl⟩

/-! ## C5 -/

/-- C5: `setText ""` substitutes the fixed built-in default text and resets
the position and accumulator to 0; the lines are then non-empty provided the
wrap of the (non-empty) default text is non-empty, which is a property of
the `TranscriptProcessor` implementation that is not among this repository's
sources. -/
theorem setText_empty_default (W : TranscriptProcessor)
    (s : TeleprompterManager)
    (h : W.wrapText getDefaultText s.lineWidth ≠ []) :
    (setText W "" s).text = getDefaultText ∧
    (setText W "" s).lines ≠ [] ∧
    (setText W "" s).currentLinePosition = 0 ∧
    (setText W "" s).linePositionAccumulator = 0 := by
  refine ⟨rfl, ?_, rfl, rfl⟩
  simpa [setText, processText, calculateWordsPerInterval] using h

/-- C5 witness: the theorem applied to the concrete manager `exShort` and
the spec-modelled processor. -/
theorem setText_empty_default_witness :
    (setText modelProcessor "" exShort).text = getDefaultText ∧
    (setText modelProcessor "" exShort).lines ≠ [] ∧
    (setText modelProcessor "" exShort).currentLinePosition = 0 ∧
    (setText modelProcessor "" exShort).linePositionAccumulator = 0 :=
  setText_empty_default modelProcessor exShort
    (by rw [exShort_eq]; norm_num [modelProcessor])

/-! ## C10 -/

/-- C10: the constructor stores `scrollSpeed` unchanged, with no clamping; in
particular a manager constructed with speed 1000 keeps 1000, a value the
setter `setScrollSpeed` would have clamped to 500. -/
theorem mkTeleprompterManager_no_clamp (W : TranscriptProcessor)
    (text : String) (lineWidth scrollSpeed : ℚ) (autoReplay : Bool)
    (now : ℚ) :
    (mkTeleprompterManager W text lineWidth scrollSpeed autoReplay
      now).scrollSpeed = scrollSpeed ∧
    (mkTeleprompterManager W text lineWidth 1000 autoReplay
      now).scrollSpeed = 1000 ∧
    ¬ ((mkTeleprompterManager W text lineWidth 1000 autoReplay
      now).scrollSpeed ≤ 500) ∧
    (setScrollSpeed 1000 (mkTeleprompterManager W text lineWidth 1000
      autoReplay now)).scrollSpeed = 500 := by
  refine ⟨rfl, rfl, by norm_num [mkTeleprompterManager, resetStopwatch,
    calculateWordsPerInterval, processText], ?_⟩
  simp only [setScrollSpeed, calculateWordsPerInterval]
  norm_num

/-! ## C6 -/

/-- C6 counterexample: the rendered percentage is only clamped from above
(`Math.min(100, ...)`), not to the interval `[0, 100]`.  The state `exWide`
is reached by constructing a manager on a one-line text, advancing once
(which drives the position to `-3`), and narrowing the width so the text
rewraps to six lines: the code then shows `-150%` where the claim requires
the value clamped to `[0, 100]`, which is `0`. -/
theorem progressPercent_not_clamped_below :
    exWide = setLineWidth modelProcessor 21 (advancePosition exShort) ∧
    exWide.lines ≠ [] ∧
    exWide.numberOfLines < (exWide.lines.length : ℤ) ∧
    progressPercent exWide = -150 ∧
    specProgressPercent exWide = 0 ∧
    progressPercent exWide ≠ specProgressPercent exWide := by
  refine ⟨rfl, ?_, ?_, ?_, ?_, ?_⟩ <;> rw [exWide_eq]
  · simp
  · norm_num
  · unfold progressPercent jsRound
    norm_num
  · unfold specProgressPercent jsRound
    norm_num
  · unfold progressPercent specProgressPercent jsRound
    norm_num

/-- C6 (amended): for non-empty lines the percentage is 100 when everything
fits and `min(100, round(pos / (len - n) * 100))` otherwise - clamped from
above only; whenever `currentLinePosition` is nonnegative this coincides
with the claimed clamp to `[0, 100]`.  The rendered output of
`getCurrentVisibleText` always starts with the header that interpolates this
percentage. -/
theorem progressPercent_spec (s : TeleprompterManager) (now : ℚ)
    (hne : s.lines ≠ []) :
    ((s.lines.length : ℤ) ≤ s.numberOfLines → progressPercent s = 100) ∧
    (s.numberOfLines < (s.lines.length : ℤ) →
      progressPercent s =
        min 100 (jsRound ((s.currentLinePosition : ℚ) /
          ((s.lines.length : ℚ) - (s.numberOfLines : ℚ)) * 100))) ∧
    (0 ≤ s.currentLinePosition →
      progressPercent s = specProgressPercent s) ∧
    (∃ rest, (getCurrentVisibleText now s).1 = headerText now s ++ rest) := by
  refine ⟨fun h => by rw [progressPercent, if_pos h],
    fun h => by rw [progressPercent, if_neg (not_le.2 h)],
    fun hpos => ?_, ?_⟩
  · unfold progressPercent specProgressPercent
    by_cases h : (s.lines.length : ℤ) ≤ s.numberOfLines
    · rw [if_pos h, if_pos h]
    · rw [if_neg h, if_neg h]
      push_neg at h
      have hd : (0 : ℚ) < (s.lines.length : ℚ) - (s.numberOfLines : ℚ) := by
        have h2 : (s.numberOfLines : ℚ) < (s.lines.length : ℚ) := by
          exact_mod_cast h
        linarith
      have hq : 0 ≤ (s.currentLinePosition : ℚ) /
          ((s.lines.length : ℚ) - (s.numberOfLines : ℚ)) * 100 := by
        apply mul_nonneg _ (by norm_num)
        exact div_nonneg (by exact_mod_cast hpos) hd.le
      have hr : 0 ≤ jsRound ((s.currentLinePosition : ℚ) /
          ((s.lines.length : ℚ) - (s.numberOfLines : ℚ)) * 100) := by
        unfold jsRound
        rw [Int.floor_nonneg]
        linarith
      rw [show (s.currentLinePosition : ℚ) /
            ((s.lines.length : ℚ) - (s.numberOfLines : ℚ)) * 100 =
          100 * (s.currentLinePosition : ℚ) /
            ((s.lines.length : ℚ) - (s.numberOfLines : ℚ)) from by ring]
        at hr ⊢
      rw [eq_comm, max_eq_right (le_min (by norm_num) hr)]
  · unfold getCurrentVisibleText
    rw [if_neg hne]
    dsimp only
    split_ifs <;>
      first
        | exact ⟨_, rfl⟩
        | exact ⟨_, String.append_assoc _ _ _⟩

/-- C6 witness: the amended theorem applied to the concrete manager
`exShort`, whose one line fits in the four visible lines. -/
theorem progressPercent_spec_witness :
    progressPercent exShort = 100 ∧
    progressPercent exShort = specProgressPercent exShort := by
  have h := progressPercent_spec exShort 0 (by rw [exShort_eq]; simp)
  exact ⟨h.1 (by rw [exShort_eq]; norm_num),
    h.2.2.1 (by rw [exShort_eq])⟩

/-! ## C8 -/

/-- C8 counterexample: the claim's "offset after n+1 extra advances equals
the offset after n extra advances" fails at `n = 0`: `exShort` is at the end
(`isAtEnd` is true at position 0 because its single line fits in the four
visible lines), yet the first extra advance moves the position from 0 down
to `-3`. -/
theorem advance_at_end_first_step_moves :
    isAtEnd exShort = true ∧
    (advancePosition^[0 + 1] exShort).currentLinePosition ≠
      (advancePosition^[0] exShort).currentLinePosition := by
  constructor
  · rw [isAtEnd_iff, exShort_eq]
    norm_num
  · simp only [zero_add, Function.iterate_one, Function.iterate_zero_apply]
    rw [show advancePosition exShort = exShortAdvanced from rfl,
      exShortAdvanced_eq, exShort_eq]
    norm_num

/-- C8 (amended): from any at-end state with non-empty lines, every advance
from the first one onwards leaves the position at exactly
`lines.length - numberOfLines`; hence the offset never exceeds
`max(0, lines.length - numberOfLines)` and is identical after n and n+1
extra advances for every n ≥ 1 (the very first extra advance may still move
the offset down when `lines.length < numberOfLines`). -/
theorem advance_at_end_stabilizes (s : TeleprompterManager)
    (hne : s.lines ≠ []) (hend : isAtEnd s = true) :
    ∀ k : ℕ, 1 ≤ k →
      (advancePosition^[k] s).currentLinePosition =
        (s.lines.length : ℤ) - s.numberOfLines ∧
      (advancePosition^[k] s).currentLinePosition ≤
        max 0 ((s.lines.length : ℤ) - s.numberOfLines) ∧
      (advancePosition^[k + 1] s).currentLinePosition =
        (advancePosition^[k] s).currentLinePosition := by
  have key : ∀ k : ℕ, 1 ≤ k →
      (advancePosition^[k] s).currentLinePosition =
        (s.lines.length : ℤ) - s.numberOfLines := by
    intro k
    induction k with
    | zero => intro h; exact absurd h (by omega)
    | succ m ih =>
      intro _
      rw [Function.iterate_succ_apply']
      by_cases hm : m = 0
      · subst hm
        simpa using advancePosition_at_end s hne hend
      · have ht := ih (Nat.one_le_iff_ne_zero.2 hm)
        have hlines := iterate_advancePosition_lines s m
        have hnum := iterate_advancePosition_numberOfLines s m
        have hne2 : (advancePosition^[m] s).lines ≠ [] := by
          rw [hlines]; exact hne
        have hend2 : isAtEnd (advancePosition^[m] s) = true := by
          rw [isAtEnd_iff, hlines, hnum, ht]
        rw [advancePosition_at_end _ hne2 hend2, hlines, hnum]
  intro k hk
  refine ⟨key k hk, ?_, ?_⟩
  · rw [key k hk]
    exact le_max_right _ _
  · rw [key k hk, key (k + 1) (by omega)]

/-- C8 witness: the amended theorem applied to the concrete manager
`exShort` at n = 1. -/
theorem advance_at_end_stabilizes_witness :
    (advancePosition^[1] exShort).currentLinePosition =
      (-3 : ℤ) ∧
    (advancePosition^[2] exShort).currentLinePosition =
      (advancePosition^[1] exShort).currentLinePosition := by
  have h := advance_at_end_stabilizes exShort
    (by rw [exShort_eq]; simp)
    (by rw [isAtEnd_iff, exShort_eq]; norm_num) 1 (by norm_num)
  refine ⟨?_, h.2.2⟩
  rw [h.1, exShort_eq]
  norm_num

/-! ## C7 -/

/-- C7 counterexample: render alone drives the phase machine from
`ShowingEndBanner` back to `Scrolling`, with no `setText` or
`resetPosition` call.  Starting from the fresh short-text manager `exShort`,
rendering at times 1, 5001 and 15001 gives
Scrolling → HoldingFinalLine → ShowingEndBanner → Scrolling: the last step
(10000 ms into the banner) clears every phase flag inside
`getCurrentVisibleText`, contradicting the claim that `ShowingEndBanner` is
only left for `Idle` or through an explicit reset. -/
theorem render_banner_to_scrolling_without_reset :
    phase exShort = Phase.Scrolling ∧
    exHold = (getCurrentVisibleText 1 exShort).2 ∧
    phase exHold = Phase.HoldingFinalLine ∧
    exBanner = (getCurrentVisibleText 5001 exHold).2 ∧
    phase exBanner = Phase.ShowingEndBanner ∧
    exBanner.endTimestamp = some 5001 ∧
    exAfterBanner = (getCurrentVisibleText 15001 exBanner).2 ∧
    phase exAfterBanner = Phase.Scrolling := by
  refine ⟨?_, rfl, ?_, rfl, ?_, ?_, rfl, ?_⟩
  · rw [exShort_eq]; simp [phase]
  · rw [exHold_eq]; simp [phase]
  · rw [exBanner_eq]; simp [phase]
  · rw [exBanner_eq]
  · rw [exAfterBanner_eq]; simp [phase]

/-- C7 (amended): the render-driven phase transitions of a single
`getCurrentVisibleText` call are exactly
Scrolling → Scrolling/HoldingFinalLine,
HoldingFinalLine → HoldingFinalLine, or → ShowingEndBanner once 5000 ms have
elapsed since `finalLineTimestamp`, and
ShowingEndBanner → ShowingEndBanner, or → Scrolling (render itself clears
the flags, without any `setText`/`resetPosition`) once 10000 ms have elapsed
since `endTimestamp`; while fewer than 10000 ms have elapsed the banner
string is rendered.  `Idle` and the replay timer are session-loop concerns
outside the engine. -/
theorem render_phase_step (s : TeleprompterManager) (now : ℚ) :
    (phase s = Phase.Scrolling →
      phase (getCurrentVisibleText now s).2 = Phase.Scrolling ∨
      phase (getCurrentVisibleText now s).2 = Phase.HoldingFinalLine) ∧
    (phase s = Phase.HoldingFinalLine →
      phase (getCurrentVisibleText now s).2 = Phase.HoldingFinalLine ∨
      (phase (getCurrentVisibleText now s).2 = Phase.ShowingEndBanner ∧
        ∃ t, s.finalLineTimestamp = some t ∧ 5000 ≤ now - t)) ∧
    (phase s = Phase.ShowingEndBanner →
      phase (getCurrentVisibleText now s).2 = Phase.ShowingEndBanner ∨
      (phase (getCurrentVisibleText now s).2 = Phase.Scrolling ∧
        ∃ t, s.endTimestamp = some t ∧ 10000 ≤ now - t)) ∧
    (∀ t, s.showingEndMessage = true → s.showingFinalLine = false →
      s.lines ≠ [] → isAtEnd s = true → s.endTimestamp = some t →
      ¬ t = 0 → now - t < 10000 →
      (getCurrentVisibleText now s).1 =
        headerText now s ++ "\n\n*** END OF TEXT ***") := by
  cases hEM : s.showingEndMessage <;> cases hFL : s.showingFinalLine
  · -- Scrolling
    refine ⟨fun _ => ?_, fun h => ?_, fun h => ?_, fun t h => ?_⟩
    · by_cases h0 : s.lines = []
      · left; simp [getCurrentVisibleText, h0, phase, hEM, hFL]
      · by_cases h1 : isAtEnd s = true
        · right
          simp [getCurrentVisibleText, h0, h1, hEM, hFL, phase]
        · left
          simp [getCurrentVisibleText, h0, h1, hEM, hFL, phase]
    · exact absurd h (by simp [phase, hEM, hFL])
    · exact absurd h (by simp [phase, hEM, hFL])
    · exact absurd h (by simp [hEM])
  · -- HoldingFinalLine
    refine ⟨fun h => ?_, fun _ => ?_, fun h => ?_, fun t h => ?_⟩
    · exact absurd h (by simp [phase, hEM, hFL])
    · by_cases h0 : s.lines = []
      · left; simp [getCurrentVisibleText, h0, phase, hEM, hFL]
      · by_cases h1 : isAtEnd s = true
        · by_cases h2 : jsTruthy s.finalLineTimestamp = true
          · by_cases h3 : now - s.finalLineTimestamp.getD 0 < 5000
            · left
              simp [getCurrentVisibleText, h0, h1, h2, h3, hEM, hFL, phase]
            · right
              obtain ⟨ft, hft⟩ : ∃ ft, s.finalLineTimestamp = some ft := by
                cases hc : s.finalLineTimestamp with
                | none => rw [hc] at h2; exact absurd h2 (by simp [jsTruthy])
                | some q => exact ⟨q, rfl⟩
              refine ⟨?_, ft, hft, ?_⟩
              · by_cases h4 : jsTruthy (some now) = true <;>
                  simp [getCurrentVisibleText, h0, h1, h2, h3, h4, hEM, hFL,
                    phase, show (0 : ℚ) < 10000 from by norm_num]
              · rw [hft] at h3
                simpa using not_lt.1 h3
          · left
            simp [getCurrentVisibleText, h0, h1, h2, hEM, hFL, phase]
        · left
          simp [getCurrentVisibleText, h0, h1, phase, hEM, hFL]
    · exact absurd h (by simp [phase, hEM, hFL])
    · exact absurd h (by simp [hEM])
  · -- ShowingEndBanner with the final-line flag clear
    refine ⟨fun h => ?_, fun h => ?_, fun _ => ?_, fun t hsem hsfl h0 h1 het ht0 h3 => ?_⟩
    · exact absurd h (by simp [phase, hEM, hFL])
    · exact absurd h (by simp [phase, hEM, hFL])
    · by_cases h0 : s.lines = []
      · left; simp [getCurrentVisibleText, h0, phase, hEM, hFL]
      · by_cases h1 : isAtEnd s = true
        · by_cases h2 : jsTruthy s.endTimestamp = true
          · by_cases h3 : now - s.endTimestamp.getD 0 < 10000
            · left
              simp [getCurrentVisibleText, h0, h1, h2, h3, hEM, hFL, phase]
            · right
              obtain ⟨et, het⟩ : ∃ et, s.endTimestamp = some et := by
                cases hc : s.endTimestamp with
                | none => rw [hc] at h2; exact absurd h2 (by simp [jsTruthy])
                | some q => exact ⟨q, rfl⟩
              refine ⟨?_, et, het, ?_⟩
              · simp [getCurrentVisibleText, h0, h1, h2, h3, hEM, hFL, phase]
              · rw [het] at h3
                simpa using not_lt.1 h3
          · left
            simp [getCurrentVisibleText, h0, h1, h2, hEM, hFL, phase]
        · left
          simp [getCurrentVisibleText, h0, h1, phase, hEM, hFL]
    · have h2 : jsTruthy s.endTimestamp = true := by
        simp [jsTruthy, het, ht0]
      have hgd : s.endTimestamp.getD 0 = t := by simp [het]
      simp [getCurrentVisibleText, h0, h1, h2, hEM, hFL, hgd, h3,
        headerText]
  · -- ShowingEndBanner with both flags set
    refine ⟨fun h => ?_, fun h => ?_, fun _ => ?_,
      fun t hsem hsfl => absurd hsfl (by simp [hFL])⟩
    · exact absurd h (by simp [phase, hEM, hFL])
    · exact absurd h (by simp [phase, hEM, hFL])
    · by_cases h0 : s.lines = []
      · left; simp [getCurrentVisibleText, h0, phase, hEM, hFL]
      · by_cases h1 : isAtEnd s = true
        · by_cases h2 : jsTruthy s.finalLineTimestamp = true
          · by_cases h3 : now - s.finalLineTimestamp.getD 0 < 5000
            · left
              simp [getCurrentVisibleText, h0, h1, h2, h3, hEM, hFL, phase]
            · left
              by_cases h4 : jsTruthy (some now) = true <;>
                simp [getCurrentVisibleText, h0, h1, h2, h3, h4, hEM, hFL,
                  phase, show (0 : ℚ) < 10000 from by norm_num]
          · by_cases h5 : jsTruthy s.endTimestamp = true
            · by_cases h3 : now - s.endTimestamp.getD 0 < 10000
              · left
                simp [getCurrentVisibleText, h0, h1, h2, h3, h5, hEM, hFL,
                  phase]
              · right
                obtain ⟨et, het⟩ : ∃ et, s.endTimestamp = some et := by
                  cases hc : s.endTimestamp with
                  | none => rw [hc] at h5; exact absurd h5 (by simp [jsTruthy])
                  | some q => exact ⟨q, rfl⟩
                refine ⟨?_, et, het, ?_⟩
                · simp [getCurrentVisibleText, h0, h1, h2, h3, h5, hEM, hFL,
                    phase]
                · rw [het] at h3
                  simpa using not_lt.1 h3
            · left
              simp [getCurrentVisibleText, h0, h1, h2, h5, hEM, hFL, phase]
        · left
          simp [getCurrentVisibleText, h0, h1, phase, hEM, hFL]

/-- C7 witness: the amended transition theorem applied to the concrete
banner-phase state `exBanner` at a time 10000 ms into the banner. -/
theorem render_phase_step_witness :
    phase (getCurrentVisibleText 15001 exBanner).2 =
      Phase.ShowingEndBanner ∨
    (phase (getCurrentVisibleText 15001 exBanner).2 = Phase.Scrolling ∧
      ∃ t, exBanner.endTimestamp = some t ∧ 10000 ≤ 15001 - t) :=
  (render_phase_step exBanner 15001).2.2.1
    (by rw [exBanner_eq]; simp [phase])

/-! ## C9 -/

/-- C9: whenever the whole text fits in the visible window
(`lines.length ≤ numberOfLines`), `isAtEnd` is already true at position 0,
before any advance; consequently the first render of a fresh short text
(flags still clear) immediately enters the `HoldingFinalLine` phase. -/
theorem isAtEnd_short_text (s : TeleprompterManager) (now : ℚ)
    (hlen : (s.lines.length : ℤ) ≤ s.numberOfLines)
    (hpos : s.currentLinePosition = 0) :
    isAtEnd s = true ∧
    (s.lines ≠ [] → s.showingFinalLine = false →
      s.showingEndMessage = false →
      phase (getCurrentVisibleText now s).2 = Phase.HoldingFinalLine) := by
  have hend : isAtEnd s = true := by
    rw [isAtEnd_iff, hpos]
    omega
  refine ⟨hend, fun hne hf he => ?_⟩
  unfold getCurrentVisibleText
  rw [if_neg hne]
  dsimp only
  rw [hend]
  simp [hf, he, phase]

/-- C9 witness: the theorem applied to the concrete manager `exShort`. -/
theorem isAtEnd_short_text_witness :
    isAtEnd exShort = true ∧
    phase (getCurrentVisibleText 2 exShort).2 = Phase.HoldingFinalLine := by
  have h := isAtEnd_short_text exShort 2
    (by rw [exShort_eq]; norm_num) (by rw [exShort_eq])
  exact ⟨h.1, h.2 (by rw [exShort_eq]; simp) (by rw [exShort_eq])
    (by rw [exShort_eq])⟩

end Teleprompter
